import Mathlib

/-
Verification development for the signallite WebRTC signaling system.

The server model embeds `src/server.js`: the mutable `channels` record of
three JS `Map`s (offers, answers, iceCandidates) keyed by channel name, the
socket.io room membership, and the five message handlers (`join`,
`submitOffer`, `getOffer`, `submitAnswer`, `submitIceCandidate`) together
with `clearChannelData`.  JS `Map`s are embedded as association lists
(`alookup`/`aset`/`aerase` below match `Map.get`/`Map.set`/`Map.delete`).
Payloads (SDP offers, answers, ICE candidates) are opaque strings, exactly
as the server treats them; sockets are identified by natural numbers.

The client model embeds the stage-ful `WebRTCClient` of the bundled client
source (constructor, `_updateStage`, the socket listeners,
`initializePeerConnection`, `createOffer` and its polling interval,
`handleRemoteAnswer`, `addIceCandidate`, `handlePeerDisconnection`,
`reconnectToSignalingServer`, `disconnectFromSignalingServer`).  The
external `RTCPeerConnection` transport is modelled by the `PC` structure
with W3C semantics at the points the client exercises:
`addIceCandidate` rejects with an InvalidState error while no remote
description is committed, and `setRemoteDescription` with an answer
rejects unless a local offer is pending and no remote description is yet
committed.  The socket.io client is modelled by two flags: it is connected
or not, and once the code itself calls `socket.disconnect()` (a manual
disconnect) the library never auto-reconnects, whereas after an
involuntary drop it does, firing the `connect` handler again.
-/

namespace Signallite

/-! ## Association lists: the embedding of JS `Map` -/

/-- JS `Map.get`: the value stored at key `k`, if any. -/
def alookup (k : String) : List (String × α) → Option α
  | [] => none
  | (k2, v) :: rest => if k2 = k then some v else alookup k rest

/-- JS `Map.set`: replace the binding of `k` if present, else append it. -/
def aset (k : String) (v : α) : List (String × α) → List (String × α)
  | [] => [(k, v)]
  | (k2, v2) :: rest => if k2 = k then (k, v) :: rest else (k2, v2) :: aset k v rest

/-- JS `Map.delete`: drop the binding of `k`. -/
def aerase (k : String) : List (String × α) → List (String × α)
  | [] => []
  | (k2, v2) :: rest => if k2 = k then aerase k rest else (k2, v2) :: aerase k rest

theorem alookup_aset_self (k : String) (v : α) (m : List (String × α)) :
    alookup k (aset k v m) = some v := by
  induction m with
  | nil => simp [aset, alookup]
  | cons hd tl ih =>
    obtain ⟨k2, v2⟩ := hd
    by_cases h : k2 = k
    · simp [aset, alookup, h]
    · simp [aset, alookup, h, ih]

theorem alookup_aerase_self (k : String) (m : List (String × α)) :
    alookup k (aerase k m) = none := by
  induction m with
  | nil => simp [aerase, alookup]
  | cons hd tl ih =>
    obtain ⟨k2, v2⟩ := hd
    by_cases h : k2 = k
    · simp [aerase, h, ih]
    · simp [aerase, alookup, h, ih]

/-! ## Server state (`src/server.js`) -/

/-- Socket identifier (socket.io `socket.id`). -/
abbrev SocketId := Nat

/-- Messages the server emits back to clients. -/
inductive SMsg where
  | offerReceived (offer : String)
  | offerSubmitted (channelName : String)
  | offerRetrieved (channelName : String) (offer : Option String)
  | answerReceived (answer : String)
  | answerSubmitted (channelName : String)
  | iceCandidateReceived (candidate : String)
  | iceCandidateSubmitted (channelName : String)
  deriving DecidableEq, Repr

/-- One socket.io emission: a target socket and a message. -/
structure Emit where
  target : SocketId
  msg : SMsg
  deriving DecidableEq, Repr

/-- The server's mutable state: the `channels` record of `server.js` plus
the socket.io room membership used by `socket.to(channelName)`. -/
structure ServerState where
  offers : List (String × String)
  answers : List (String × String)
  ice : List (String × List String)
  rooms : List (String × List SocketId)
  deriving DecidableEq, Repr

/-- Server start-up state: three empty maps, no rooms. -/
def ServerState.initial : ServerState := ⟨[], [], [], []⟩

/-- Members of a socket.io room (empty when the room does not exist). -/
def roomMembers (st : ServerState) (ch : String) : List SocketId :=
  (alookup ch st.rooms).getD []

/-- Recipients of `socket.to(ch).emit(...)`: room members other than the sender. -/
def othersInRoom (st : ServerState) (ch : String) (sid : SocketId) : List SocketId :=
  (roomMembers st ch).filter (fun x => x != sid)

/-- `join` handler: `socket.join(channelName)` adds the socket to the room. -/
def join (st : ServerState) (sid : SocketId) (ch : String) : ServerState :=
  let members := roomMembers st ch
  if sid ∈ members then st
  else { st with rooms := aset ch (members ++ [sid]) st.rooms }

/-- `clearChannelData`: deletes the channel's entry from all three maps. -/
def clearChannelData (ch : String) (st : ServerState) : ServerState :=
  { st with
    offers := aerase ch st.offers
    answers := aerase ch st.answers
    ice := aerase ch st.ice }

/-- `submitOffer` handler: store the offer, broadcast `offerReceived` to the
rest of the room, acknowledge the sender with `offerSubmitted`. -/
def submitOffer (st : ServerState) (sid : SocketId) (ch offer : String) :
    ServerState × List Emit :=
  ({ st with offers := aset ch offer st.offers },
   (othersInRoom st ch sid).map (fun t => ⟨t, SMsg.offerReceived offer⟩)
     ++ [⟨sid, SMsg.offerSubmitted ch⟩])

/-- `getOffer` handler: reply `offerRetrieved` with the stored offer
(`Map.get` yields `undefined`, embedded as `none`, when absent). -/
def getOffer (st : ServerState) (sid : SocketId) (ch : String) :
    ServerState × List Emit :=
  (st, [⟨sid, SMsg.offerRetrieved ch (alookup ch st.offers)⟩])

/-- `submitAnswer` handler: same pattern as `submitOffer` for answers. -/
def submitAnswer (st : ServerState) (sid : SocketId) (ch answer : String) :
    ServerState × List Emit :=
  ({ st with answers := aset ch answer st.answers },
   (othersInRoom st ch sid).map (fun t => ⟨t, SMsg.answerReceived answer⟩)
     ++ [⟨sid, SMsg.answerSubmitted ch⟩])

/-- `submitIceCandidate` handler: initialise the channel's candidate array if
needed, push the candidate, broadcast, acknowledge — and then call
`clearChannelData(channelName)`, as the source does on every submission. -/
def submitIceCandidate (st : ServerState) (sid : SocketId) (ch cand : String) :
    ServerState × List Emit :=
  let cands := (alookup ch st.ice).getD []
  let st1 := { st with ice := aset ch (cands ++ [cand]) st.ice }
  (clearChannelData ch st1,
   (othersInRoom st ch sid).map (fun t => ⟨t, SMsg.iceCandidateReceived cand⟩)
     ++ [⟨sid, SMsg.iceCandidateSubmitted ch⟩])

/-! ### Concrete server run used by the C1 and C7 analyses:
two sockets join `room`, socket 1 submits an offer, then one ICE candidate. -/

/-- Both sockets joined `room`. -/
def stJoined : ServerState := join (join ServerState.initial 1 "room") 2 "room"

/-- After socket 1 submits offer `o1` on `room`. -/
def stAfterOffer : ServerState := (submitOffer stJoined 1 "room" "o1").1

/-- After socket 1 then submits ICE candidate `c1` on `room`. -/
def stAfterCand : ServerState := (submitIceCandidate stAfterOffer 1 "room" "c1").1

/-! ## Client model (the stage-ful `WebRTCClient`) -/

/-- A session description: a serialized offer or answer payload. -/
inductive Desc where
  | offer (sdp : String)
  | answer (sdp : String)
  deriving DecidableEq, Repr

/-- Errors surfaced by the client's handlers: dereferencing the `null`
`peerConnection`, or an InvalidState rejection from the transport. -/
inductive CErr where
  | nullDeref
  | invalidState
  deriving DecidableEq, Repr

/-- The external `RTCPeerConnection` transport, at the interface the client
uses: local/remote descriptions, the candidates it has accepted, and
whether `close()` has been called. -/
structure PC where
  localDescription : Option Desc
  remoteDescription : Option Desc
  appliedCandidates : List String
  closed : Bool
  deriving DecidableEq, Repr

/-- `RTCPeerConnection` freshly built by `initializePeerConnection`. -/
def PC.fresh : PC := ⟨none, none, [], false⟩

/-- `RTCPeerConnection.close()`. -/
def PC.close (pc : PC) : PC := { pc with closed := true }

/-- W3C `addIceCandidate`: rejects with InvalidState while no remote
description is committed (or the connection is closed); otherwise the
candidate is handed to the connectivity machinery. -/
def PC.addCandidate (pc : PC) (c : String) : Except CErr PC :=
  if pc.closed then Except.error CErr.invalidState
  else
    match pc.remoteDescription with
    | none => Except.error CErr.invalidState
    | some _ => Except.ok { pc with appliedCandidates := pc.appliedCandidates ++ [c] }

/-- W3C `setRemoteDescription` with an answer: valid only in
have-local-offer state, i.e. a local offer is pending and no remote
description is committed yet; otherwise rejects with InvalidState. -/
def PC.setRemoteAnswer (pc : PC) (a : String) : Except CErr PC :=
  if pc.closed then Except.error CErr.invalidState
  else
    match pc.remoteDescription with
    | some _ => Except.error CErr.invalidState
    | none =>
      match pc.localDescription with
      | some _ => Except.ok { pc with remoteDescription := some (Desc.answer a) }
      | none => Except.error CErr.invalidState

/-- The `WebRTCClient` instance state.  Fields mirror the constructor:
`stage`, `peerConnection`, `channel`, `peerChannel`, and the lazily-set
`offerCreator`; the remaining fields model the instance's socket.io
connection (`socketConnected`, and `manuallyDisconnected` once the code
called `socket.disconnect()`), the `createOffer` polling interval
(`pollArmed`), and the pending `setTimeout` that later calls
`disconnectFromSignalingServer` (`disconnectTimerArmed`). -/
structure Client where
  serverUrl : String
  channelName : String
  stage : Nat
  peerConnection : Option PC
  channel : Option String
  peerChannel : Option String
  offerCreator : Bool
  pollArmed : Bool
  socketConnected : Bool
  manuallyDisconnected : Bool
  disconnectTimerArmed : Bool
  deriving DecidableEq, Repr

/-- The constructor's state: stage 0, no peer connection, no channels, a
freshly created socket that has not yet connected. -/
def Client.fresh (url ch : String) : Client :=
  ⟨url, ch, 0, none, none, none, false, false, false, false, false⟩

/-- Messages the client emits to the relay. -/
inductive COut where
  | submitOffer (channelName : String) (offer : String)
  deriving DecidableEq, Repr

/-- The opaque offer SDP the transport generates for this client. -/
def offerPayload : String := "offer-sdp"

/-- `createOffer()`: sets `offerCreator = true` and arms the 200 ms
polling interval; it returns immediately whatever the stage is. -/
def createOffer (cl : Client) : Client :=
  { cl with offerCreator := true, pollArmed := true }

/-- One tick of `createOffer`'s polling interval: if the stage is 1 the
interval is cleared, `initializePeerConnection` runs (fresh transport plus
a local data channel), the generated offer is committed as the local
description and submitted to the relay; otherwise nothing happens and the
interval stays armed. -/
def pollTick (cl : Client) : Client × List COut :=
  if cl.pollArmed then
    if cl.stage = 1 then
      ({ cl with
          pollArmed := false
          peerConnection := some
            { PC.fresh with localDescription := some (Desc.offer offerPayload) }
          channel := some cl.channelName },
       [COut.submitOffer cl.channelName offerPayload])
    else (cl, [])
  else (cl, [])

/-- `addIceCandidate(candidateString)`: parse and hand the candidate to
`this.peerConnection.addIceCandidate` — with no queue and no null check. -/
def addIceCandidate (cl : Client) (c : String) : Except CErr Client :=
  match cl.peerConnection with
  | none => Except.error CErr.nullDeref
  | some pc =>
    match pc.addCandidate c with
    | Except.ok pc2 => Except.ok { cl with peerConnection := some pc2 }
    | Except.error e => Except.error e

/-- The `iceCandidateReceived` socket listener: awaits `addIceCandidate`;
a rejection escapes as an unhandled error and the instance is unchanged. -/
def onIceCandidateReceived (cl : Client) (c : String) : Client × Option CErr :=
  match addIceCandidate cl c with
  | Except.ok cl2 => (cl2, none)
  | Except.error e => (cl, some e)

/-- `handleRemoteAnswer(answerString)`: parse and unconditionally call
`this.peerConnection.setRemoteDescription` — no duplicate-answer guard. -/
def handleRemoteAnswer (cl : Client) (a : String) : Except CErr Client :=
  match cl.peerConnection with
  | none => Except.error CErr.nullDeref
  | some pc =>
    match pc.setRemoteAnswer a with
    | Except.ok pc2 => Except.ok { cl with peerConnection := some pc2 }
    | Except.error e => Except.error e

/-- The `answerReceived` socket listener: awaits `handleRemoteAnswer`;
a rejection escapes as an unhandled error and the instance is unchanged. -/
def onAnswerReceived (cl : Client) (a : String) : Client × Option CErr :=
  match handleRemoteAnswer cl a with
  | Except.ok cl2 => (cl2, none)
  | Except.error e => (cl, some e)

/-- The reconstruction performed by `reconnectToSignalingServer`: the
brand-new `WebRTCClient` built with the same constructor arguments, and
the delay (ms) after which `client.createOffer()` is scheduled, when the
lost session had `offerCreator` set. -/
structure Reconstruction where
  newInstance : Client
  offerDelay : Option Nat
  deriving DecidableEq, Repr

/-- Result of `handlePeerDisconnection`: the mutated old instance, the old
peer connection after `close()` (when there was one), and the
reconstruction (when the guard fired). -/
structure PDResult where
  client : Client
  closedPC : Option PC
  reconstruction : Option Reconstruction
  deriving DecidableEq, Repr

/-- `handlePeerDisconnection`: only when the stage is 2 or 3, move to
stage 4, close and null the peer connection, null both channel references,
then `reconnectToSignalingServer`: manually disconnect the old socket,
construct a brand-new `WebRTCClient`, and if this instance was the offer
creator schedule `client.createOffer()` on the new instance after 2000 ms. -/
def handlePeerDisconnection (cl : Client) : PDResult :=
  if cl.stage = 2 ∨ cl.stage = 3 then
    { client :=
        { cl with
            stage := 4
            peerConnection := none
            channel := none
            peerChannel := none
            socketConnected := false
            manuallyDisconnected := true }
      closedPC := cl.peerConnection.map PC.close
      reconstruction := some
        { newInstance := Client.fresh cl.serverUrl cl.channelName
          offerDelay := if cl.offerCreator then some 2000 else none } }
  else { client := cl, closedPC := none, reconstruction := none }

/-! ### Event model of one client instance

Each constructor is one asynchronous event the instance can observe:
socket.io `connect` (initial connection or automatic reconnection after an
involuntary drop), an involuntary socket drop, the application calling
`createOffer`, a tick of its polling interval, relay messages, the
transport reporting `connected`, the delayed `disconnectFromSignalingServer`
timeout firing, and the transport reporting disconnected/failed/closed
(or the peer channel closing), which runs `handlePeerDisconnection`. -/
inductive CEvent where
  | socketConnect
  | socketDrop
  | callCreateOffer
  | pollFire
  | answerReceived (a : String)
  | iceCandidateReceived (c : String)
  | peerStateConnected
  | disconnectTimer
  | peerLost
  deriving DecidableEq, Repr

/-- Whether an event can occur in a given client state: `connect` fires
only on a disconnected socket that was never manually disconnected
(socket.io does not auto-reconnect after `socket.disconnect()`); drops and
relay messages need a connected socket; poll ticks need the armed
interval; the transport reports `connected` only for an open connection
with both descriptions committed; the timeout needs to be scheduled; the
transport can fail whenever a peer connection exists. -/
def enabled (cl : Client) : CEvent → Bool
  | CEvent.socketConnect => !cl.socketConnected && !cl.manuallyDisconnected
  | CEvent.socketDrop => cl.socketConnected
  | CEvent.callCreateOffer => true
  | CEvent.pollFire => cl.pollArmed
  | CEvent.answerReceived _ => cl.socketConnected
  | CEvent.iceCandidateReceived _ => cl.socketConnected
  | CEvent.peerStateConnected =>
    match cl.peerConnection with
    | some pc => !pc.closed && pc.localDescription.isSome && pc.remoteDescription.isSome
    | none => false
  | CEvent.disconnectTimer => cl.disconnectTimerArmed
  | CEvent.peerLost => cl.peerConnection.isSome

/-- The state change each event's handler performs.  `connect` joins the
channel and sets stage 1 unconditionally; a drop only logs; the transport's
`connected` state sets stage 2, the remote data channel arrives, and the
delayed signaling disconnect is scheduled; the timeout runs
`disconnectFromSignalingServer` (stage 3 only if the socket is still
connected); transport loss runs `handlePeerDisconnection`. -/
def step (cl : Client) : CEvent → Client
  | CEvent.socketConnect => { cl with socketConnected := true, stage := 1 }
  | CEvent.socketDrop => { cl with socketConnected := false }
  | CEvent.callCreateOffer => createOffer cl
  | CEvent.pollFire => (pollTick cl).1
  | CEvent.answerReceived a => (onAnswerReceived cl a).1
  | CEvent.iceCandidateReceived c => (onIceCandidateReceived cl c).1
  | CEvent.peerStateConnected =>
    { cl with stage := 2, peerChannel := some "peer", disconnectTimerArmed := true }
  | CEvent.disconnectTimer =>
    if cl.socketConnected then
      { cl with
          disconnectTimerArmed := false
          socketConnected := false
          manuallyDisconnected := true
          stage := 3 }
    else { cl with disconnectTimerArmed := false }
  | CEvent.peerLost => (handlePeerDisconnection cl).client

/-- Run a sequence of events. -/
def run (cl : Client) : List CEvent → Client
  | [] => cl
  | e :: rest => run (step cl e) rest

/-- Whether every event of the sequence is enabled when it occurs. -/
def enabledTrace (cl : Client) : List CEvent → Bool
  | [] => true
  | e :: rest => enabled cl e && enabledTrace (step cl e) rest

/-- The freshly constructed client used in the concrete runs below. -/
def client0 : Client := Client.fresh "url" "room"

/-- Offerer run up to a committed local offer but no remote description:
connect, call `createOffer`, poll fires at stage 1. -/
def offererNoRemote : Client :=
  run client0 [CEvent.socketConnect, CEvent.callCreateOffer, CEvent.pollFire]

/-- Event sequence exhibiting a drop-and-reconnect of the signaling socket
while peer-connected: full offerer negotiation, transport connected
(stage 2), involuntary socket drop, automatic reconnection. -/
def reconnectTrace : List CEvent :=
  [CEvent.socketConnect, CEvent.callCreateOffer, CEvent.pollFire,
   CEvent.answerReceived "a", CEvent.peerStateConnected,
   CEvent.socketDrop, CEvent.socketConnect]

/-- Offerer client that has already committed a remote answer `a1`. -/
def dupAnswerClient : Client := (onAnswerReceived offererNoRemote "a1").1

/-- A peer-connected offerer instance, as left by the reconnect-free happy
path: both descriptions committed, both channel references live, the
delayed signaling disconnect scheduled. -/
def lostClient : Client :=
  { serverUrl := "url", channelName := "room", stage := 2
    peerConnection := some
      { localDescription := some (Desc.offer offerPayload)
        remoteDescription := some (Desc.answer "a")
        appliedCandidates := [], closed := false }
    channel := some "room", peerChannel := some "peer"
    offerCreator := true, pollArmed := false
    socketConnected := true, manuallyDisconnected := false
    disconnectTimerArmed := true }

/-! ## Helper lemmas -/

/-- A poll tick never changes the stage. -/
theorem pollTick_stage (cl : Client) : ((pollTick cl).1).stage = cl.stage := by
  unfold pollTick
  split
  · split <;> rfl
  · rfl

/-- The `answerReceived` listener never changes the stage. -/
theorem onAnswerReceived_stage (cl : Client) (a : String) :
    ((onAnswerReceived cl a).1).stage = cl.stage := by
  unfold onAnswerReceived handleRemoteAnswer
  rcases hpc : cl.peerConnection with _ | pc
  · rfl
  · rcases hsr : pc.setRemoteAnswer a with e | pc2 <;> simp [hsr]

/-- The `iceCandidateReceived` listener never changes the stage. -/
theorem onIceCandidateReceived_stage (cl : Client) (c : String) :
    ((onIceCandidateReceived cl c).1).stage = cl.stage := by
  unfold onIceCandidateReceived addIceCandidate
  rcases hpc : cl.peerConnection with _ | pc
  · rfl
  · rcases hac : pc.addCandidate c with e | pc2 <;> simp [hac]

/-! ## Claims -/

/-- C1: refuted on the code at a concrete input.  After sockets 1 and 2
join `room` and socket 1 stores offer `o1`, a single `submitIceCandidate`
of `c1` leaves the channel's candidate list deleted (not grown by one) and
deletes the stored offer and answer as a side effect of the submit, even
though the room's membership is still `[1, 2]` — because the handler ends
by calling `clearChannelData`. -/
theorem c1_submit_purges_mailbox :
    roomMembers stAfterCand "room" = [1, 2]
    ∧ alookup "room" stAfterOffer.offers = some "o1"
    ∧ alookup "room" stAfterCand.ice = none
    ∧ alookup "room" stAfterCand.offers = none
    ∧ alookup "room" stAfterCand.answers = none := by
  decide

/-- C7: refuted on the code at a concrete input.  With offer `o1` stored
for `room`, `getOffer` from socket 2 replies `some o1`; after an
intervening `submitIceCandidate` (and no intervening `submitOffer`), the
same `getOffer` replies `none`, because the candidate submission purges
the channel's stored offer. -/
theorem c7_getOffer_changed_by_candidate_submit :
    (getOffer stAfterOffer 2 "room").2
        = [Emit.mk 2 (SMsg.offerRetrieved "room" (some "o1"))]
    ∧ stAfterCand = (submitIceCandidate stAfterOffer 1 "room" "c1").1
    ∧ (getOffer stAfterCand 2 "room").2
        = [Emit.mk 2 (SMsg.offerRetrieved "room" none)] := by
  decide

/-- C5: `submitOffer` stores the offer as the channel's lastOffer
(overwriting any previous value), forwards the unmodified payload as
`offerReceived` to every other current member of the channel, acknowledges
the sender with `offerSubmitted`, emits only the acknowledgment when there
is no other member, and touches no other server state. -/
theorem c5_submitOffer_stores_forwards_acks (st : ServerState) (sid t : SocketId)
    (ch offer : String) :
    alookup ch (submitOffer st sid ch offer).1.offers = some offer
    ∧ (t ∈ roomMembers st ch → t ≠ sid →
        Emit.mk t (SMsg.offerReceived offer) ∈ (submitOffer st sid ch offer).2)
    ∧ Emit.mk sid (SMsg.offerSubmitted ch) ∈ (submitOffer st sid ch offer).2
    ∧ (othersInRoom st ch sid = [] →
        (submitOffer st sid ch offer).2 = [Emit.mk sid (SMsg.offerSubmitted ch)])
    ∧ (submitOffer st sid ch offer).1.answers = st.answers
    ∧ (submitOffer st sid ch offer).1.ice = st.ice
    ∧ (submitOffer st sid ch offer).1.rooms = st.rooms := by
  refine ⟨alookup_aset_self ch offer st.offers, ?_, ?_, ?_, rfl, rfl, rfl⟩
  · intro hmem hne
    simp only [submitOffer, List.mem_append, List.mem_map]
    exact Or.inl ⟨t, by simp [othersInRoom, List.mem_filter, hmem, hne], rfl⟩
  · simp [submitOffer]
  · intro h
    simp [submitOffer, h]

/-- C5 witness: with both sockets joined to `room`, socket 1's submission
of `o1` stores it, forwards it to socket 2, and acknowledges socket 1. -/
theorem c5_witness :
    alookup "room" (submitOffer stJoined 1 "room" "o1").1.offers = some "o1"
    ∧ Emit.mk 2 (SMsg.offerReceived "o1") ∈ (submitOffer stJoined 1 "room" "o1").2
    ∧ Emit.mk 1 (SMsg.offerSubmitted "room") ∈ (submitOffer stJoined 1 "room" "o1").2 := by
  have h := c5_submitOffer_stores_forwards_acks stJoined 1 2 "room" "o1"
  exact ⟨h.1, h.2.1 (by decide) (by decide), h.2.2.1⟩

/-- C6: `getOffer` leaves the server state unchanged and always replies
with exactly one `offerRetrieved` message: carrying the stored offer when
the channel's mailbox holds one, and `none` otherwise — in particular a
query against the never-populated initial state replies `none`. -/
theorem c6_getOffer_replies_stored_or_none (st : ServerState) (sid : SocketId)
    (ch : String) :
    (getOffer st sid ch).1 = st
    ∧ (∀ o, alookup ch st.offers = some o →
        (getOffer st sid ch).2 = [Emit.mk sid (SMsg.offerRetrieved ch (some o))])
    ∧ (alookup ch st.offers = none →
        (getOffer st sid ch).2 = [Emit.mk sid (SMsg.offerRetrieved ch none)])
    ∧ (getOffer ServerState.initial sid ch).2
        = [Emit.mk sid (SMsg.offerRetrieved ch none)] := by
  refine ⟨rfl, ?_, ?_, ?_⟩
  · intro o h; simp [getOffer, h]
  · intro h; simp [getOffer, h]
  · simp [getOffer, ServerState.initial, alookup]

/-- C6 witness: after `o1` was submitted for `room`, `getOffer` replies
`some o1`; against the initial state it replies `none`. -/
theorem c6_witness :
    (getOffer stAfterOffer 2 "room").2
        = [Emit.mk 2 (SMsg.offerRetrieved "room" (some "o1"))]
    ∧ (getOffer ServerState.initial 2 "room").2
        = [Emit.mk 2 (SMsg.offerRetrieved "room" none)] := by
  have h := c6_getOffer_replies_stored_or_none stAfterOffer 2 "room"
  exact ⟨h.2.1 "o1" (by decide), h.2.2.2⟩

/-- C2: refuted on the code at a concrete input.  Run the offerer up to a
committed local offer with no remote description yet; a remote candidate
delivered there makes `addIceCandidate` reject with InvalidState, the
instance is left unchanged (there is no queue to retain the candidate),
and no candidate is applied — the candidate is dropped, not queued and
flushed. -/
theorem c2_early_candidate_dropped :
    enabledTrace client0 [CEvent.socketConnect, CEvent.callCreateOffer, CEvent.pollFire]
        = true
    ∧ offererNoRemote.peerConnection.map PC.remoteDescription = some none
    ∧ onIceCandidateReceived offererNoRemote "cand"
        = (offererNoRemote, some CErr.invalidState)
    ∧ offererNoRemote.peerConnection.map PC.appliedCandidates = some [] := by
  decide

/-- C10: an `iceCandidateReceived` event delivered right after the socket
connects — before any `createOffer` completion or `offerReceived`, so
`peerConnection` is still `null` — makes `addIceCandidate` fail on the
null dereference: the listener's promise rejects and the instance is
unchanged, so the candidate is neither applied nor retained. -/
theorem c10_null_peerConnection_candidate_rejected :
    enabledTrace client0 [CEvent.socketConnect] = true
    ∧ (run client0 [CEvent.socketConnect]).peerConnection = none
    ∧ onIceCandidateReceived (run client0 [CEvent.socketConnect]) "cand"
        = (run client0 [CEvent.socketConnect], some CErr.nullDeref) := by
  decide

/-- C9 counterexample: an offerer engine with remote answer `a1` already
committed; delivering a second answer `a2` is not ignored-with-log — the
unconditional `setRemoteDescription` rejects with InvalidState and the
rejection escapes the `answerReceived` listener. -/
theorem c9_second_answer_errors_cex :
    dupAnswerClient.offerCreator = true
    ∧ dupAnswerClient.peerConnection.map PC.remoteDescription
        = some (some (Desc.answer "a1"))
    ∧ onAnswerReceived dupAnswerClient "a2" = (dupAnswerClient, some CErr.invalidState) := by
  decide

/-- C9 (amended): for every client whose peer connection has a remote
description already committed, delivering a second answer makes
`handleRemoteAnswer` reject with InvalidState; the committed state is
unchanged (the listener keeps the old instance) but the error escapes the
handler rather than being ignored with a log. -/
theorem c9_second_answer_invalidState (cl : Client) (pc : PC) (d : Desc) (a : String)
    (hpc : cl.peerConnection = some pc) (hrem : pc.remoteDescription = some d) :
    handleRemoteAnswer cl a = Except.error CErr.invalidState
    ∧ onAnswerReceived cl a = (cl, some CErr.invalidState) := by
  have h1 : pc.setRemoteAnswer a = Except.error CErr.invalidState := by
    by_cases hc : pc.closed <;> simp [PC.setRemoteAnswer, hc, hrem]
  have h2 : handleRemoteAnswer cl a = Except.error CErr.invalidState := by
    simp [handleRemoteAnswer, hpc, h1]
  exact ⟨h2, by simp [onAnswerReceived, h2]⟩

/-- C9 witness: the amended statement applied to the concrete offerer with
answer `a1` committed, receiving the duplicate answer `a2`. -/
theorem c9_invalidState_witness :
    onAnswerReceived dupAnswerClient "a2" = (dupAnswerClient, some CErr.invalidState) := by
  have h := c9_second_answer_invalidState dupAnswerClient
      { localDescription := some (Desc.offer offerPayload)
        remoteDescription := some (Desc.answer "a1")
        appliedCandidates := [], closed := false }
      (Desc.answer "a1") "a2" (by decide) (by decide)
  exact h.2

/-- C3 counterexample: a reachable event sequence of one instance in which
the stage moves from 2 (PeerConnected) directly to 1 (SignalingUp): after
full negotiation and the transport's `connected` signal, the signaling
socket drops involuntarily and socket.io auto-reconnects, firing the
`connect` handler, which sets stage 1 unconditionally — without passing
through stage 3 or 4. -/
theorem c3_direct_stage2_to_stage1_cex :
    enabledTrace client0 reconnectTrace = true
    ∧ (run client0 (reconnectTrace.take 6)).stage = 2
    ∧ run client0 reconnectTrace
        = step (run client0 (reconnectTrace.take 6)) CEvent.socketConnect
    ∧ (run client0 reconnectTrace).stage = 1 := by
  decide

/-- C3 (amended): a direct stage transition from 2 (PeerConnected) to 1
(SignalingUp) happens only on a socket.io `connect` event, i.e. only when
the signaling socket drops involuntarily and auto-reconnects while
peer-connected; under every other event the stage leaves 2 only for 3 or
4, so absent a socket reconnection every path from PeerConnected back to
SignalingUp passes through PeerLost or SignalingDown. -/
theorem c3_stage2_to_stage1_only_on_reconnect (cl : Client) (e : CEvent)
    (h2 : cl.stage = 2) (h1 : (step cl e).stage = 1) : e = CEvent.socketConnect := by
  cases e with
  | socketConnect => rfl
  | socketDrop => simp [step] at h1; omega
  | callCreateOffer => simp [step, createOffer] at h1; omega
  | pollFire =>
    rw [step, pollTick_stage] at h1
    omega
  | answerReceived a =>
    rw [step, onAnswerReceived_stage] at h1
    omega
  | iceCandidateReceived c =>
    rw [step, onIceCandidateReceived_stage] at h1
    omega
  | peerStateConnected => simp [step] at h1
  | disconnectTimer =>
    by_cases hs : cl.socketConnected <;> simp [step, hs] at h1
    omega
  | peerLost =>
    have hg : cl.stage = 2 ∨ cl.stage = 3 := Or.inl h2
    simp [step, handlePeerDisconnection, if_pos hg] at h1

/-- C3 witness: the amended statement applied at the concrete peer-connected
state reached by the first six events of the reconnect trace, under the
`connect` event itself. -/
theorem c3_reconnect_witness :
    (run client0 (reconnectTrace.take 6)).stage = 2
    ∧ CEvent.socketConnect = CEvent.socketConnect := by
  refine ⟨by decide, ?_⟩
  exact c3_stage2_to_stage1_only_on_reconnect (run client0 (reconnectTrace.take 6))
    CEvent.socketConnect (by decide) (by decide)

/-- C4: whenever `handlePeerDisconnection` fires after the client was
peer-connected (stage 2 or 3), the instance enters stage 4 with the old
peer connection closed and all channel references cleared, a brand-new
client is constructed in the pristine constructor state (fresh socket not
yet connected, no negotiation state), and `createOffer` is scheduled on
the new instance after the 2000 ms grace delay exactly when the lost
session was the offer creator. -/
theorem c4_peerLost_reconstruction (cl : Client) (pc : PC)
    (hst : cl.stage = 2 ∨ cl.stage = 3) (hpc : cl.peerConnection = some pc) :
    (handlePeerDisconnection cl).client.stage = 4
    ∧ (handlePeerDisconnection cl).client.peerConnection = none
    ∧ (handlePeerDisconnection cl).client.channel = none
    ∧ (handlePeerDisconnection cl).client.peerChannel = none
    ∧ (handlePeerDisconnection cl).closedPC = some (PC.close pc)
    ∧ (handlePeerDisconnection cl).reconstruction.map Reconstruction.newInstance
        = some (Client.fresh cl.serverUrl cl.channelName)
    ∧ (Client.fresh cl.serverUrl cl.channelName).stage = 0
    ∧ (Client.fresh cl.serverUrl cl.channelName).peerConnection = none
    ∧ (Client.fresh cl.serverUrl cl.channelName).socketConnected = false
    ∧ (Client.fresh cl.serverUrl cl.channelName).manuallyDisconnected = false
    ∧ (cl.offerCreator = true →
        (handlePeerDisconnection cl).reconstruction.map Reconstruction.offerDelay
          = some (some 2000))
    ∧ (cl.offerCreator = false →
        (handlePeerDisconnection cl).reconstruction.map Reconstruction.offerDelay
          = some none) := by
  refine ⟨?_, ?_, ?_, ?_, ?_, ?_, rfl, rfl, rfl, rfl, ?_, ?_⟩
  · simp [handlePeerDisconnection, if_pos hst]
  · simp [handlePeerDisconnection, if_pos hst]
  · simp [handlePeerDisconnection, if_pos hst]
  · simp [handlePeerDisconnection, if_pos hst]
  · simp [handlePeerDisconnection, if_pos hst, hpc]
  · simp [handlePeerDisconnection, if_pos hst]
  · intro h; simp [handlePeerDisconnection, if_pos hst, h]
  · intro h; simp [handlePeerDisconnection, if_pos hst, h]

/-- C4 witness: the reconstruction applied to a concrete peer-connected
offerer instance. -/
theorem c4_reconstruction_witness :
    (handlePeerDisconnection lostClient).client.stage = 4
    ∧ (handlePeerDisconnection lostClient).client.peerConnection = none
    ∧ (handlePeerDisconnection lostClient).reconstruction.map Reconstruction.offerDelay
        = some (some 2000) := by
  have h := c4_peerLost_reconstruction lostClient
      { localDescription := some (Desc.offer offerPayload)
        remoteDescription := some (Desc.answer "a")
        appliedCandidates := [], closed := false }
      (Or.inl rfl) rfl
  obtain ⟨a1, a2, _, _, _, _, _, _, _, _, a11, _⟩ := h
  exact ⟨a1, a2, a11 rfl⟩

/-- C8: `createOffer` returns without failing whatever the stage is,
recording the offerer role and arming the polling interval without
touching the stage; a poll tick at any stage other than 1 changes nothing
and emits nothing (the request stays armed, not dropped); and the first
tick at stage 1 initializes the peer connection with the generated offer
committed as local description, submits the offer to the relay, and clears
the interval. -/
theorem c8_createOffer_polls_until_signalingUp (cl : Client) :
    (createOffer cl).pollArmed = true
    ∧ (createOffer cl).offerCreator = true
    ∧ (createOffer cl).stage = cl.stage
    ∧ (cl.pollArmed = true → cl.stage ≠ 1 → pollTick cl = (cl, []))
    ∧ (cl.pollArmed = true → cl.stage = 1 →
        ((pollTick cl).1.peerConnection.map PC.localDescription
            = some (some (Desc.offer offerPayload))
          ∧ (pollTick cl).2 = [COut.submitOffer cl.channelName offerPayload]
          ∧ (pollTick cl).1.pollArmed = false)) := by
  refine ⟨rfl, rfl, rfl, ?_, ?_⟩
  · intro hp hne
    simp [pollTick, hp, hne]
  · intro hp h1
    refine ⟨?_, ?_, ?_⟩ <;> simp [pollTick, hp, h1]

/-- C8 witness: a tick right after `createOffer` at stage 0 leaves the
armed request pending unchanged; once the client reached stage 1, the next
tick submits the offer. -/
theorem c8_signalingUp_witness :
    pollTick (createOffer client0) = (createOffer client0, [])
    ∧ (pollTick (run client0 [CEvent.socketConnect, CEvent.callCreateOffer])).2
        = [COut.submitOffer
            (run client0 [CEvent.socketConnect, CEvent.callCreateOffer]).channelName
            offerPayload] := by
  have h0 := c8_createOffer_polls_until_signalingUp (createOffer client0)
  have h1 := c8_createOffer_polls_until_signalingUp
      (run client0 [CEvent.socketConnect, CEvent.callCreateOffer])
  exact ⟨h0.2.2.2.1 (by decide) (by decide), (h1.2.2.2.2 (by decide) (by decide)).2.1⟩

end Signallite
